import Mathlib

set_option maxRecDepth 100000

/-!
# Verification of the "Prava" English-learning front end

Shallow embedding of the client-side logic of the repository: the quiz
payload builders (`src/lib/quizPayload.ts` and the unnamed normalizer
module), the lesson step sequencer (`src/app/lessons/[id]/page.tsx`),
the per-page quiz `canProceed` predicates, the API error helper
(`src/lib/api.ts` and the typed variant shipped next to
`src/lib/auth-store.ts`), the session store, and the `TokenBuilder`
tile widget.  TypeScript numbers that hold integers are modelled as
`Int` (ids) or `Nat` (indices, counts); `x | null` and optional fields
become `Option`; JS objects used as string-keyed dictionaries become
functions into `Option`.
-/

namespace Prava

/-! ## Shared data model (quizPayload.ts / the unnamed normalizer module) -/

/-- The `qtype` of a quiz question: `"mcq" | "tf" | "fill" | "build"`. -/
inductive QType
  | mcq
  | tf
  | fill
  | build
deriving DecidableEq, Repr

/-- The `UISelected` from the normalizer module (`part_006`): a tagged union of
in-memory answer selections.  The `mcq` index and `tf` value are `Option`
because the `quizPayload.ts` variant declares them `number | null` /
`boolean | null` and every consumer re-checks `!= null`. -/
inductive UISelected
  | mcq (index : Option Int)
  | tf (value : Option Bool)
  | fill (text : String)
  | build (tokens : List String)
deriving DecidableEq, Repr

/-- Question payload (`McqPayload | BuildPayload | Record<string, unknown>`);
never read by the payload builders or the `canProceed` predicates. -/
inductive QPayload
  | mcq (options : List String)
  | build (tokens : List String)
  | other
deriving DecidableEq, Repr

/-- The `UIQuestion`: superset of the `quizPayload.ts` and `part_006` shapes
(`id`, optional `lesson_id`, optional `item_index`, `prompt`, `qtype`,
`payload`). -/
structure UIQuestion where
  id : Int
  lesson_id : Option Int := none
  item_index : Option Int := none
  prompt : String := ""
  qtype : QType
  payload : QPayload := .other
deriving DecidableEq, Repr

/-- The `SelectedPayload`: the normalized `selected` object sent to the API
(`{index} | {value} | {text} | {tokens}`). -/
inductive SelectedPayload
  | index (i : Int)
  | value (v : Bool)
  | text (t : String)
  | tokens (ts : List String)
deriving DecidableEq, Repr

/-- A selection map `Record<number, UISelected | undefined>` keyed by
question id. -/
def Selections : Type := Int → Option UISelected

/-! ## Lesson / random payload builders (`part_006`) -/

namespace Part006

/-- One entry of a lesson attempt: `{question_id, selected}`. -/
structure LessonAttemptAnswer where
  question_id : Int
  selected : SelectedPayload
deriving DecidableEq, Repr

/-- The `LessonAttemptPayload`: `{lesson_id, answers}`. -/
structure LessonAttemptPayload where
  lesson_id : Int
  answers : List LessonAttemptAnswer
deriving DecidableEq, Repr

/-- One entry of a random/category attempt:
`{qid, lesson_id, item_index, selected}`. -/
structure RandomAttemptAnswer where
  qid : Int
  lesson_id : Int
  item_index : Int
  selected : SelectedPayload
deriving DecidableEq, Repr

/-- The `RandomAttemptPayload`: `{answers}`. -/
structure RandomAttemptPayload where
  answers : List RandomAttemptAnswer
deriving DecidableEq, Repr

/-- The shared `selected`-normalization chain of both builders in
`part_006`:
`if mcq && index != null … else if tf && value != null … else if fill
{text: (text || "").trim()} else if build {tokens: tokens.filter(Boolean)}`;
`none` models `selected` staying `null` (entry skipped). -/
def toSelectedPayload : UISelected → Option SelectedPayload
  | .mcq (some i) => some (.index i)
  | .mcq none => none
  | .tf (some v) => some (.value v)
  | .tf none => none
  | .fill t => some (.text t.trim)
  | .build ts => some (.tokens (ts.filter (fun s => s ≠ "")))

/-- The `questions.forEach` loop of `buildLessonSubmitPayload`: a question
with no selection, or whose selection normalizes to `null`, contributes no
entry. -/
def lessonAnswers (sels : Selections) : List UIQuestion → List LessonAttemptAnswer
  | [] => []
  | q :: rest =>
    match sels q.id with
    | none => lessonAnswers sels rest
    | some sel =>
      match toSelectedPayload sel with
      | none => lessonAnswers sels rest
      | some s => ⟨q.id, s⟩ :: lessonAnswers sels rest

/-- The `buildLessonSubmitPayload(lessonId, questions, selections)`. -/
def buildLessonSubmitPayload (lessonId : Int) (questions : List UIQuestion)
    (selections : Selections) : LessonAttemptPayload :=
  { lesson_id := lessonId, answers := lessonAnswers selections questions }

/-- The `questions.forEach((q, idx))` loop of `buildRandomSubmitPayload`,
carrying the 0-based `idx`; `lesson_id` falls back to `fallbackLessonId`
(`q.lesson_id ?? fallbackLessonId`) and `item_index` to `idx + 1`. -/
def randomAnswers (fallbackLessonId : Int) (sels : Selections) :
    Nat → List UIQuestion → List RandomAttemptAnswer
  | _, [] => []
  | idx, q :: rest =>
    match sels q.id with
    | none => randomAnswers fallbackLessonId sels (idx + 1) rest
    | some sel =>
      match toSelectedPayload sel with
      | none => randomAnswers fallbackLessonId sels (idx + 1) rest
      | some s =>
        { qid := q.id
          lesson_id := q.lesson_id.getD fallbackLessonId
          item_index := q.item_index.getD ((idx : Int) + 1)
          selected := s } :: randomAnswers fallbackLessonId sels (idx + 1) rest

/-- The `buildRandomSubmitPayload(questions, selections, fallbackLessonId = 0)`. -/
def buildRandomSubmitPayload (questions : List UIQuestion) (selections : Selections)
    (fallbackLessonId : Int := 0) : RandomAttemptPayload :=
  { answers := randomAnswers fallbackLessonId selections 0 questions }

end Part006

/-! ## `buildSubmitPayload` (`src/lib/quizPayload.ts`) -/

namespace QuizPayload

/-- One entry of `SubmitPayload.answers`: `{question_id, selected}`. -/
structure SubmitAnswer where
  question_id : Int
  selected : SelectedPayload
deriving DecidableEq, Repr

/-- The `SubmitPayload`: `{lesson_id, answers}`. -/
structure SubmitPayload where
  lesson_id : Int
  answers : List SubmitAnswer
deriving DecidableEq, Repr

/-- The body of the `questions.map` in `buildSubmitPayload`: an absent
selection yields the empty shell `{question_id, selected: {text: ""}}`;
otherwise the branch is taken only when the selection's tag matches the
question's `qtype` (and the value is non-null), with a fill/empty-text
fallback. -/
def submitAnswerFor (sels : Selections) (q : UIQuestion) : SubmitAnswer :=
  match sels q.id with
  | none => ⟨q.id, .text ""⟩
  | some sel =>
    match q.qtype, sel with
    | .mcq, .mcq (some i) => ⟨q.id, .index i⟩
    | .tf, .tf (some v) => ⟨q.id, .value v⟩
    | .build, .build ts => ⟨q.id, .tokens ts⟩
    | _, s => ⟨q.id, .text (match s with | .fill t => t | _ => "")⟩

/-- The `buildSubmitPayload(lessonId, questions, selections)`: one entry per
question, answered or not. -/
def buildSubmitPayload (lessonId : Int) (questions : List UIQuestion)
    (selections : Selections) : SubmitPayload :=
  { lesson_id := lessonId, answers := questions.map (submitAnswerFor selections) }

end QuizPayload

/-! ## Lesson step sequencer (`src/app/lessons/[id]/page.tsx`) -/

namespace LessonSeq

/-- The `TeachItem`: one vocabulary card of a `teach` section. -/
structure TeachItem where
  front : String
  back : String
  audio_en : Option String := none
  ipa : Option String := none
  tip : Option String := none
deriving DecidableEq, Repr

/-- A pattern / grammar mini example `{en, ro, audio_en?}`. -/
structure PExample where
  en : String
  ro : String
  audio_en : Option String := none
deriving DecidableEq, Repr

/-- The `BuildTask`: `{tokens, answer}`. -/
structure BuildTask where
  tokens : List String
  answer : String
deriving DecidableEq, Repr

/-- The `ListenTask`: `{audio_en?, prompt_ro?, options, correct_index}`. -/
structure ListenTask where
  audio_en : Option String := none
  prompt_ro : Option String := none
  options : List String
  correct_index : Nat
deriving DecidableEq, Repr

/-- The `DictationTask`: `{audio_en?, answer}`. -/
structure DictationTask where
  audio_en : Option String := none
  answer : String
deriving DecidableEq, Repr

/-- The `Section`: one typed block of the content-v2 document. -/
inductive Sect
  | overview (id : String) (body_md : Option String) (narration_ro narration_en : Option String)
  | teach (id : String) (narration_ro : Option String) (items : List TeachItem)
  | grammar (id : String) (points : List String) (mini_examples : List PExample)
      (narration_ro : Option String)
  | patterns (id : String) (examples : List PExample) (narration_ro : Option String)
  | build (id : String) (tasks : List BuildTask) (narration_ro : Option String)
  | listen (id : String) (tasks : List ListenTask) (narration_ro : Option String)
  | dictation (id : String) (tasks : List DictationTask) (narration_ro : Option String)
  | review (id : String) (narration_ro : Option String)
deriving DecidableEq, Repr

/-- The `Page`: one flattened renderable unit derived from a section. -/
inductive Page
  | overview (id sectionId : String) (body_md narration_ro narration_en : Option String)
  | teach (id sectionId : String) (item : TeachItem) (narration_ro : Option String)
  | grammar (id sectionId : String) (points : List String) (narration_ro : Option String)
  | pattern (id sectionId : String) (ex : PExample) (narration_ro : Option String)
  | build (id sectionId : String) (task : BuildTask) (narration_ro : Option String)
  | listen (id sectionId : String) (task : ListenTask) (narration_ro : Option String)
  | dictation (id sectionId : String) (task : DictationTask) (narration_ro : Option String)
  | review (id sectionId : String) (narration_ro : Option String)
deriving DecidableEq, Repr

/-- The `p.id` of a page (the key of the per-page answer dictionaries). -/
def Page.pid : Page → String
  | .overview i _ _ _ _ => i
  | .teach i _ _ _ => i
  | .grammar i _ _ _ => i
  | .pattern i _ _ _ => i
  | .build i _ _ _ => i
  | .listen i _ _ _ => i
  | .dictation i _ _ _ => i
  | .review i _ _ => i

/-- The pages one section contributes in the content-v2 flattening loop:
`overview`/`grammar`/`review` push one page, `teach` one per item (with id
`` `${sec.id}-${i}` ``), `patterns` one per example, `build`/`listen`/
`dictation` one per task. -/
def pagesOfSection : Sect → List Page
  | .overview id b ro en => [.overview id id b ro en]
  | .teach id ro items =>
      items.enum.map (fun p => .teach (id ++ "-" ++ toString p.1) id p.2 ro)
  | .grammar id pts _mini ro => [.grammar id id pts ro]
  | .patterns id exs ro =>
      exs.enum.map (fun p => .pattern (id ++ "-" ++ toString p.1) id p.2 ro)
  | .build id tasks ro =>
      tasks.enum.map (fun p => .build (id ++ "-" ++ toString p.1) id p.2 ro)
  | .listen id tasks ro =>
      tasks.enum.map (fun p => .listen (id ++ "-" ++ toString p.1) id p.2 ro)
  | .dictation id tasks ro =>
      tasks.enum.map (fun p => .dictation (id ++ "-" ++ toString p.1) id p.2 ro)
  | .review id ro => [.review id id ro]

/-- The `for (const sec of content.sections)` flattening: concatenation of
each section's pages in order. -/
def flattenSections (sections : List Sect) : List Page :=
  (sections.map pagesOfSection).flatten

/-- The `FlashcardDTO` of the fallback path (`id ?? i` is interpolated into a
string, so the id is modelled as an optional string). -/
structure FlashcardDTO where
  id : Option String := none
  front_text : Option String := none
  back_text : Option String := none
  audio_url : Option String := none
deriving DecidableEq, Repr

/-- The flashcards-fallback path: `[overview "intro"] ++ one teach page per
flashcard (id `` `v-${fc.id ?? i}` ``) ++ [review "review"]`. -/
def fallbackPages (flashcards : List FlashcardDTO) : List Page :=
  .overview "intro" "intro" none none none ::
    (flashcards.enum.map (fun p =>
      Page.teach ("v-" ++ (p.2.id.getD (toString p.1))) "teach"
        { front := p.2.front_text.getD ""
          back := p.2.back_text.getD ""
          audio_en := p.2.audio_url } none)
      ++ [.review "review" "review" none])

/-! ### Per-page answer state and the gating predicate -/

/-- The four per-page answer dictionaries of the lesson player.  A JS
dictionary entry can be absent (`none`) or present; `listen` entries are
initialized to `null` (`some none`) by the flattening loop. -/
structure Answers where
  listen : String → Option (Option Int)
  dictation : String → Option String
  buildA : String → Option (List String)
  revealedTeach : String → Option Bool

/-- The `canProceed()`: gating of the Continue/Next control per page kind.
`!p` (index out of range) returns `false`; a teach page needs
`revealedTeach[p.id] === true`; a listen page `listenAnswers[p.id] !== null`
(note: an *absent* entry also passes, as in JS); a dictation page
`(dictationAnswers[p.id] || "").trim().length > 0`; a build page
`(buildAnswers[p.id]?.length || 0) > 0`; every other kind passes. -/
def canProceed (pages : List Page) (current : Nat) (st : Answers) : Bool :=
  match pages.get? current with
  | none => false
  | some p =>
    match p with
    | .teach id _ _ _ =>
        match st.revealedTeach id with
        | some true => true
        | _ => false
    | .listen id _ _ _ =>
        match st.listen id with
        | some none => false
        | _ => true
    | .dictation id _ _ _ => ((st.dictation id).getD "").trim.length > 0
    | .build id _ _ _ => ((st.buildA id).getD []).length > 0
    | _ => true

/-- The state updates the lesson player's subcomponents can fire: revealing
a teach card (`setRevealedTeach(… true)`), choosing a listen option
(`ListenChoice.onChange(i)`), typing dictation text
(`Dictation.onChange(t)`), and changing the build token list
(`TokenBuilder.onChange(tokens)`). -/
inductive AnswerOp
  | reveal (pid : String)
  | chooseListen (pid : String) (i : Int)
  | typeDictation (pid : String) (t : String)
  | setBuild (pid : String) (ts : List String)

/-- Applying one update to the answer dictionaries (each setter writes one
key of its own dictionary, leaving the rest unchanged). -/
def applyOp (st : Answers) : AnswerOp → Answers
  | .reveal pid =>
      { st with revealedTeach := fun k => if k = pid then some true else st.revealedTeach k }
  | .chooseListen pid i =>
      { st with listen := fun k => if k = pid then some (some i) else st.listen k }
  | .typeDictation pid t =>
      { st with dictation := fun k => if k = pid then some t else st.dictation k }
  | .setBuild pid ts =>
      { st with buildA := fun k => if k = pid then some ts else st.buildA k }

/-- An update "clears" a page's answer when it empties the answer the
page's predicate reads: blank dictation text or an empty build list on
that very page. -/
def clearsAnswerOf (op : AnswerOp) (p : Page) : Bool :=
  match op, p with
  | .typeDictation pid t, .dictation id _ _ _ => pid = id && t.trim = ""
  | .setBuild pid ts, .build id _ _ _ => pid = id && ts.isEmpty
  | _, _ => false

/-- The eight page/section kinds, for counting. -/
inductive PKind
  | overview
  | teach
  | grammar
  | pattern
  | build
  | listen
  | dictation
  | review
deriving DecidableEq, Repr

/-- The kind of a page. -/
def Page.kind : Page → PKind
  | .overview _ _ _ _ _ => .overview
  | .teach _ _ _ _ => .teach
  | .grammar _ _ _ _ => .grammar
  | .pattern _ _ _ _ => .pattern
  | .build _ _ _ _ => .build
  | .listen _ _ _ _ => .listen
  | .dictation _ _ _ _ => .dictation
  | .review _ _ _ => .review

/-- The kind of a section. -/
def Sect.kind : Sect → PKind
  | .overview _ _ _ _ => .overview
  | .teach _ _ _ => .teach
  | .grammar _ _ _ _ => .grammar
  | .patterns _ _ _ => .pattern
  | .build _ _ _ => .build
  | .listen _ _ _ => .listen
  | .dictation _ _ _ => .dictation
  | .review _ _ => .review

/-- Number of vocabulary items a section holds (0 for non-teach sections). -/
def Sect.teachItems : Sect → Nat
  | .teach _ _ items => items.length
  | _ => 0

/-- Number of pattern examples a section holds. -/
def Sect.patternExamples : Sect → Nat
  | .patterns _ exs _ => exs.length
  | _ => 0

/-- Number of build tasks a section holds. -/
def Sect.buildTasks : Sect → Nat
  | .build _ tasks _ => tasks.length
  | _ => 0

/-- Number of listen tasks a section holds. -/
def Sect.listenTasks : Sect → Nat
  | .listen _ tasks _ => tasks.length
  | _ => 0

/-- Number of dictation tasks a section holds. -/
def Sect.dictationTasks : Sect → Nat
  | .dictation _ tasks _ => tasks.length
  | _ => 0

/-- Modelled from the spec: the per-page completion predicate the spec
describes for the Next control — a teach card must have been revealed, a
listen page must hold a selected option, a dictation page non-blank text,
a build page a non-empty token list; other kinds always pass. -/
def specPageDone (st : Answers) : Page → Prop
  | .teach id _ _ _ => st.revealedTeach id = some true
  | .listen id _ _ _ => ∃ i, st.listen id = some (some i)
  | .dictation id _ _ _ => ((st.dictation id).getD "").trim ≠ ""
  | .build id _ _ _ => (st.buildA id).getD [] ≠ []
  | _ => True

end LessonSeq

/-! ### `next()` and the best-effort progress update -/

namespace LessonSeq

/-- A `POST /progress/` body `{lesson_id, percent}`. -/
structure ProgressUpdate where
  lesson_id : Int
  percent : Int
deriving DecidableEq, Repr

/-- The `Math.round(((n + 1) / total) * 100)` with JS number arithmetic
modelled over `ℚ` (`Math.round` rounds half away from zero on positives,
as `round` does). -/
def progressPercent (n total : Nat) : Int :=
  round (((n + 1 : ℚ) / total) * 100)

/-- One invocation of `next()`: the state update `c ↦ min(c+1, total-1)`
with `total = pages.length || 1`, paired with the single `persistProgress`
POST it fires for the *new* index (none when the lesson or the token is
missing — the guard at the top of `persistProgress`). -/
def nextStep (lessonId : Option Int) (accessToken : Option String)
    (pagesLen : Nat) (c : Nat) : Nat × List ProgressUpdate :=
  let total := if pagesLen = 0 then 1 else pagesLen
  let n := min (c + 1) (total - 1)
  let pct := progressPercent n total
  match lessonId, accessToken with
  | some lid, some _ => (n, [⟨lid, pct⟩])
  | _, _ => (n, [])

/-- Observable actions a rejection handler can take. -/
inductive CatchEffect
  | consoleError (tag : String)
  | setErrorState (msg : String)
  | rethrow
  | retry
deriving DecidableEq, Repr

/-- The rejection handler `next()` attaches to the progress POST:
`.catch(() => {})` — an empty body, so no logging, no error state, no
rethrow, no retry. -/
def progressCatchEffects : List CatchEffect := []

end LessonSeq

/-- The `handleProgressUpdate`'s `catch` in the older lesson-page variant
(`part_002`): `console.error("Progress update error:", err)` and nothing
else. -/
def Part002.progressCatchEffects : List LessonSeq.CatchEffect :=
  [.consoleError "Progress update error:"]

/-! ## Lesson-quiz page (`src/app/quiz/[lessonId]/page.tsx`) -/

namespace QuizLessonPage

/-- The `QuestionAnswer`: the page's untagged selection record
`{index?, value?, text?}`. -/
structure QuestionAnswer where
  index : Option Int := none
  value : Option Bool := none
  text : Option String := none
deriving DecidableEq, Repr

/-- The `QuizAnswer`: `{question_id, selected: QuestionAnswer | null}`. -/
structure QuizAnswer where
  question_id : Int
  selected : Option QuestionAnswer
deriving DecidableEq, Repr

/-- The `Question` of this page (its `qtype` union is only mcq/tf/fill; the
shared `QType` is a superset). -/
structure Question where
  id : Int
  prompt : String := ""
  qtype : QType
  options : Option (List String) := none
  blanks : Option Nat := none
deriving DecidableEq, Repr

/-- The `LessonDetail` as this page consumes it. -/
structure Lesson where
  id : Int
  title : String := ""
  questions : List Question
deriving DecidableEq, Repr

/-- The `getCurrentAnswer(questionId)`:
`answers.find(a => a.question_id === questionId)?.selected` (an absent
entry and a `null` selection both model to `none`). -/
def getCurrentAnswer (answers : List QuizAnswer) (qid : Int) : Option QuestionAnswer :=
  match answers.find? (fun a => a.question_id == qid) with
  | none => none
  | some a => a.selected

/-- The `canProceed()` of the lesson-quiz page: the current answer is neither
`null` nor `undefined` — no per-type shape check.  (An out-of-range index
would fault in the source reading `currentQ.id`; it is modelled as `false`
and unreached by the claims.) -/
def canProceed (lesson : Option Lesson) (currentQuestion : Nat)
    (answers : List QuizAnswer) : Bool :=
  match lesson with
  | none => false
  | some l =>
    match l.questions.get? currentQuestion with
    | none => false
    | some q => (getCurrentAnswer answers q.id).isSome

/-- The `handleSubmit`'s posted answers:
`answers.filter(a => a.selected !== null)`. -/
def postedAnswers (answers : List QuizAnswer) : List QuizAnswer :=
  answers.filter (fun a => a.selected.isSome)

end QuizLessonPage

/-! ## Older lesson-quiz page variant (`part_008`) -/

namespace Part008

/-- The `QuizAnswer` of `part_008`:
`{question_id, selected: UISelected | null}`. -/
structure QuizAnswer where
  question_id : Int
  selected : Option UISelected
deriving DecidableEq, Repr

/-- The `submit()` payload answers in `part_008`:
`answers.filter(a => a.selected !== null)`. -/
def postedAnswers (answers : List QuizAnswer) : List QuizAnswer :=
  answers.filter (fun a => a.selected.isSome)

end Part008

/-! ## Random-quiz page (`src/app/quiz/random/page.tsx`) -/

namespace QuizRandomPage

/-- The `canProceed()` of the random-quiz page: `false` with no current item or
no selection; otherwise a per-`qtype` check that the selection's tag
matches (build also needs tokens, mcq a non-null index, tf a non-null
value). -/
def canProceed (current : Option UIQuestion) (sels : Selections) : Bool :=
  match current with
  | none => false
  | some q =>
    match sels q.id with
    | none => false
    | some sel =>
      match q.qtype with
      | .build => match sel with | .build ts => ts.length > 0 | _ => false
      | .mcq => match sel with | .mcq i => i.isSome | _ => false
      | .tf => match sel with | .tf v => v.isSome | _ => false
      | .fill => match sel with | .fill _ => true | _ => false

end QuizRandomPage

/-- Modelled from the spec: the invariant's shape relation — "every answer
selection's shape must match its question's declared qtype", i.e. the
selection's variant tag equals the `qtype` (with a non-null index for mcq,
a non-null value for tf, any fill text, non-empty build tokens). -/
def specShapeMatches (qt : QType) (sel : UISelected) : Bool :=
  match qt, sel with
  | .mcq, .mcq i => i.isSome
  | .tf, .tf v => v.isSome
  | .fill, .fill _ => true
  | .build, .build ts => ts.length > 0
  | _, _ => false

/-- Modelled from the spec: the same shape relation for the lesson-quiz
page's *untagged* `QuestionAnswer` records — an mcq answer carries a
non-null `index`, a tf answer a non-null `value`, a fill answer a `text`. -/
def specShapeMatchesQA (qt : QType) (a : QuizLessonPage.QuestionAnswer) : Bool :=
  match qt with
  | .mcq => a.index.isSome
  | .tf => a.value.isSome
  | .fill => a.text.isSome
  | .build => false

/-! ## API error helpers (`src/lib/api.ts` and the typed variant in the
`auth-store.ts` source file) -/

namespace ApiErr

/-- Parsed JSON values (`JSON.parse` is treated as an oracle: helpers take
the raw text together with its parse result, `none` = parse failure). -/
inductive Json
  | str (s : String)
  | num (n : Int)
  | bool (b : Bool)
  | null
  | arr (elems : List Json)
  | obj (fields : List (String × Json))

/-- JSON string quoting (escaping is irrelevant to the claims). -/
def quote (s : String) : String := "\"" ++ s ++ "\""

mutual

/-- The `JSON.stringify` on the model. -/
def stringify : Json → String
  | .str s => quote s
  | .num n => toString n
  | .bool b => if b then "true" else "false"
  | .null => "null"
  | .arr es => "[" ++ stringifyList es ++ "]"
  | .obj fs => "\x7b" ++ stringifyFields fs ++ "\x7d"

/-- Comma-joined array elements. -/
def stringifyList : List Json → String
  | [] => ""
  | [j] => stringify j
  | j :: rest => stringify j ++ "," ++ stringifyList rest

/-- Comma-joined `"key":value` fields. -/
def stringifyFields : List (String × Json) → String
  | [] => ""
  | [f] => quote f.1 ++ ":" ++ stringify f.2
  | f :: rest => quote f.1 ++ ":" ++ stringify f.2 ++ "," ++ stringifyFields rest

end

/-- The `isRecord`: a non-null, non-array object. -/
def isRecord : Json → Bool
  | .obj _ => true
  | _ => false

/-- The `asStringArray`: `Array.isArray(v) && v.every(x => typeof x === "string")`. -/
def asStrings : List Json → Option (List String)
  | [] => some []
  | .str s :: rest => (asStrings rest).map (s :: ·)
  | _ => none

/-- The `asStringArray` applied to an optional field value. -/
def fieldStrings (v : Option Json) : Option (List String) :=
  match v with
  | some (.arr es) => asStrings es
  | _ => none

/-- The priority chain of the typed variant over a record body:
`detail` (if a string) → `non_field_errors` → `password` → `username`
(each if a string array, joined with spaces) → `JSON.stringify(data)` if
the record has keys → `""`. -/
def recordMessage (fs : List (String × Json)) : String :=
  match fs.lookup "detail" with
  | some (.str s) => s
  | _ =>
    match fieldStrings (fs.lookup "non_field_errors") with
    | some xs => String.intercalate " " xs
    | none =>
      match fieldStrings (fs.lookup "password") with
      | some xs => String.intercalate " " xs
      | none =>
        match fieldStrings (fs.lookup "username") with
        | some xs => String.intercalate " " xs
        | none => if fs.isEmpty then "" else stringify (.obj fs)

/-- The final message format shared by both variants:
`` `${status} ${statusText}` `` plus `— msg` when a message was derived,
else `— raw.slice(0,140)` when raw text exists, else nothing. -/
def formatFinal (status : Nat) (statusText msg raw : String) : String :=
  toString status ++ " " ++ statusText ++
    (if msg ≠ "" then " — " ++ msg
     else if raw ≠ "" then " — " ++ (raw.take 140) else "")

/-- The typed error `ApiError` (message, HTTP status, parsed body). -/
structure ApiErrorM where
  message : String
  status : Nat
  data : Option Json

/-- The `throwErrorFromResponse` of the typed variant (the `ApiError` one in
the `auth-store.ts` source file): `data = raw ? JSON.parse(raw) : {}`
(a parse failure leaves `data` undefined and the message empty, the
`catch` falling through to the raw snippet); a string body is the message
itself; a record body goes through the priority chain. -/
def throwErrorFromResponseTyped (status : Nat) (statusText raw : String)
    (parsed : Option Json) : ApiErrorM :=
  let data : Option Json := if raw = "" then some (.obj []) else parsed
  let msg : String :=
    match data with
    | none => ""
    | some (.str s) => s
    | some (.obj fs) => recordMessage fs
    | some _ => ""
  { message := formatFinal status statusText msg raw, status := status, data := data }

/-- The `throwErrorFromResponse` of `src/lib/api.ts`.  Its `try` block computes
a JSON-derived message and then throws — but that `throw` is intercepted by
the function's own `catch`, which always throws the plain
`` `${status} ${statusText}${raw ? ` — ${raw.slice(0,140)}` : ""}` ``
error instead.  The JSON-derived message (`_discardedTryMessage`) is
computed and discarded, and the thrown error is an untagged `Error`
carrying no `status` or `data` field — only this message string. -/
def throwErrorFromResponsePlain (status : Nat) (statusText raw : String)
    (parsed : Option Json) : String :=
  let _discardedTryMessage : String :=
    match (if raw = "" then some (.obj []) else parsed) with
    | some (.str s) => s
    | some (.obj fs) => recordMessage fs
    | _ => ""
  formatFinal status statusText "" raw

end ApiErr

/-! ## Session store (`src/lib/auth-store.ts`) and route protection -/

namespace AuthStore

/-- The `User` profile held by the session store. -/
structure User where
  id : Int
  username : String
  xp : Option Int := none
  streak : Option Int := none
deriving DecidableEq, Repr

/-- The zustand `AuthState` fields. -/
structure AuthState where
  accessToken : Option String
  refreshToken : Option String
  user : Option User
  isAuthenticated : Bool
  hydrated : Bool
deriving DecidableEq, Repr

/-- The `logout()`: `set({accessToken: null, refreshToken: null, user: null,
isAuthenticated: false})` — a partial update, `hydrated` untouched. -/
def logout (s : AuthState) : AuthState :=
  { s with accessToken := none, refreshToken := none, user := none,
           isAuthenticated := false }

/-- The `loginWithTokens(access, refresh, user)`. -/
def loginWithTokens (s : AuthState) (access refresh : String)
    (user : Option User) : AuthState :=
  { s with accessToken := some access, refreshToken := some refresh,
           user := user, isAuthenticated := true }

/-- The `init()`: re-derives `isAuthenticated` from a persisted token. -/
def init (s : AuthState) : AuthState :=
  if s.accessToken.isSome then { s with isAuthenticated := true } else s

/-- What a guard component shows in place of its children. -/
inductive Rendered
  | children
  | spinner
  | nothing
deriving DecidableEq, Repr

/-- The `src/components/Protected.tsx` — "Placeholder — no auth checks": it
reads no auth state, never navigates, and renders its children
unconditionally.  Result: (did it redirect?, what it rendered). -/
def protectedPlaceholder (_s : AuthState) : Bool × Rendered :=
  (false, .children)

/-- The `Protected` variant in `part_003`: redirects
(`router.replace("/login")`) iff hydrated and unauthenticated; renders a
spinner before hydration, `null` when unauthenticated, children
otherwise. -/
def protectedPart003 (s : AuthState) : Bool × Rendered :=
  (s.hydrated && !s.isAuthenticated,
   if !s.hydrated then .spinner
   else if !s.isAuthenticated then .nothing
   else .children)

/-- The auth effect of the lesson-quiz page:
`if (!accessToken) router.push("/login")`. -/
def quizPageRedirects (accessToken : Option String) : Bool :=
  accessToken.isNone

end AuthStore

/-! ## The sentence-build `TokenBuilder` widget -/

namespace TokenBuilder

/-- The `remaining` in the lessons-page `TokenBuilder`:
`tokens.filter(t => selected.filter(s => s === t).length <
tokens.filter(x => x === t).length)`. -/
def remaining (tokens selected : List String) : List String :=
  tokens.filter (fun t => selected.count t < tokens.count t)

/-- The `remaining` in the random-quiz-page `TokenBuilder`: the same condition
phrased with `reduce`/push. -/
def remainingReduce (tokens selected : List String) : List String :=
  tokens.foldl
    (fun acc t => if selected.count t < tokens.count t then acc ++ [t] else acc) []

/-- The selected lists reachable from the initial empty state by the
widget's operations: `add(t)` — clicking one of the *remaining* tiles
appends `t` — and `removeAt(i)` — `splice(i, 1)` on the selected list. -/
inductive Reachable (tokens : List String) : List String → Prop
  | nil : Reachable tokens []
  | add (sel : List String) (t : String) :
      Reachable tokens sel → t ∈ remaining tokens sel →
      Reachable tokens (sel ++ [t])
  | remove (sel : List String) (i : Nat) :
      Reachable tokens sel → Reachable tokens (sel.eraseIdx i)

end TokenBuilder

/-! ## Inputs used to state and witness the claims -/

/-- A present selection the UI can actually record (and that the builders
serialize): an mcq selection carries an index, a tf selection a value;
fill and build selections are always serialized. -/
def wellFormedSel : UISelected → Bool
  | .mcq i => i.isSome
  | .tf v => v.isSome
  | .fill _ => true
  | .build _ => true

/-- The literal example of the spec: three questions, the first two
answered. -/
def exampleQuestions : List UIQuestion :=
  [{ id := 1, qtype := .mcq, payload := .mcq ["a", "b"] },
   { id := 2, qtype := .tf },
   { id := 3, qtype := .fill }]

/-- The literal example's selections: question 1 answered as mcq index 1,
question 2 as tf value true, question 3 unanswered. -/
def exampleSelections : Selections := fun qid =>
  if qid = 1 then some (.mcq (some 1))
  else if qid = 2 then some (.tf (some true))
  else none

/-- A concrete listen page (two options, first correct). -/
def exListenPage : LessonSeq.Page :=
  .listen "l-0" "l" { options := ["a", "b"], correct_index := 0 } none

/-- A one-page lesson consisting of the listen page. -/
def exPages : List LessonSeq.Page := [exListenPage]

/-- A concrete answer state: option 1 chosen on the listen page. -/
def exAnswers : LessonSeq.Answers :=
  { listen := fun k => if k = "l-0" then some (some 1) else none
    dictation := fun _ => none
    buildA := fun _ => none
    revealedTeach := fun _ => none }

/-- Pages contributed by one section, per kind. -/
def sectPageCount (k : LessonSeq.PKind) : LessonSeq.Sect → Nat
  | .teach _ _ items => if k = .teach then items.length else 0
  | .patterns _ exs _ => if k = .pattern then exs.length else 0
  | .build _ tasks _ => if k = .build then tasks.length else 0
  | .listen _ tasks _ => if k = .listen then tasks.length else 0
  | .dictation _ tasks _ => if k = .dictation then tasks.length else 0
  | s => if s.kind = k then 1 else 0


end Prava

namespace Prava

/-- A well-formed selection always normalizes to a `selected` payload. -/
lemma toSelectedPayload_isSome_of_wf (sel : UISelected)
    (h : wellFormedSel sel = true) : (Part006.toSelectedPayload sel).isSome = true := by
  cases sel with
  | mcq i => cases i <;> simp_all [wellFormedSel, Part006.toSelectedPayload]
  | tf v => cases v <;> simp_all [wellFormedSel, Part006.toSelectedPayload]
  | fill t => simp [Part006.toSelectedPayload]
  | build ts => simp [Part006.toSelectedPayload]

/-- The lesson builder's answers list corresponds, id for id and in order,
to the questions whose selection is present (assuming each present
selection is well-formed). -/
lemma lessonAnswers_map_qid (sels : Selections) (qs : List UIQuestion)
    (h : ∀ q ∈ qs, ((sels q.id).all wellFormedSel) = true) :
    (Part006.lessonAnswers sels qs).map (fun a => a.question_id)
      = (qs.filter (fun q => (sels q.id).isSome)).map (fun q => q.id) := by
  induction qs with
  | nil => rfl
  | cons q rest ih =>
    have hq := h q (by simp)
    have hrest : ∀ q' ∈ rest, ((sels q'.id).all wellFormedSel) = true :=
      fun q' hq' => h q' (by simp [hq'])
    cases hsel : sels q.id with
    | none => simp [Part006.lessonAnswers, hsel, ih hrest]
    | some sel =>
      have hwf : wellFormedSel sel = true := by
        rw [hsel] at hq; simpa [Option.all] using hq
      have hsome := toSelectedPayload_isSome_of_wf sel hwf
      cases hts : Part006.toSelectedPayload sel with
      | none => rw [hts] at hsome; simp at hsome
      | some s => simp [Part006.lessonAnswers, hsel, hts, ih hrest]

/-- C1: lesson-mode submission with exactly `k` answered questions yields
`lesson_id = L` and exactly `k` answer entries, one per answered question in
question order; and the literal example (lesson 7, 3 questions, q1 mcq
index 1, q2 tf value true) produces exactly the claimed payload. -/
theorem lesson_submit_payload_exact_k (L : Int) (qs : List UIQuestion)
    (sels : Selections) (k : Nat)
    (hwf : ∀ q ∈ qs, ((sels q.id).all wellFormedSel) = true)
    (hk : qs.countP (fun q => (sels q.id).isSome) = k) :
    (Part006.buildLessonSubmitPayload L qs sels).lesson_id = L ∧
    (Part006.buildLessonSubmitPayload L qs sels).answers.length = k ∧
    (Part006.buildLessonSubmitPayload L qs sels).answers.map (fun a => a.question_id)
      = (qs.filter (fun q => (sels q.id).isSome)).map (fun q => q.id) ∧
    Part006.buildLessonSubmitPayload 7 exampleQuestions exampleSelections
      = { lesson_id := 7, answers := [⟨1, .index 1⟩, ⟨2, .value true⟩] } := by
  have hmap := lessonAnswers_map_qid sels qs hwf
  refine ⟨rfl, ?_, hmap, by rfl⟩
  have hlen := congrArg List.length hmap
  simp only [List.length_map] at hlen
  rw [List.countP_eq_length_filter] at hk
  simpa [Part006.buildLessonSubmitPayload, hk] using hlen

/-- Witness for C1 at the literal example (k = 2). -/
theorem lesson_submit_payload_exact_k_witness :
    (Part006.buildLessonSubmitPayload 7 exampleQuestions exampleSelections).lesson_id = 7 ∧
    (Part006.buildLessonSubmitPayload 7 exampleQuestions exampleSelections).answers.length = 2 ∧
    (Part006.buildLessonSubmitPayload 7 exampleQuestions exampleSelections).answers.map
        (fun a => a.question_id)
      = (exampleQuestions.filter (fun q => (exampleSelections q.id).isSome)).map
          (fun q => q.id) ∧
    Part006.buildLessonSubmitPayload 7 exampleQuestions exampleSelections
      = { lesson_id := 7, answers := [⟨1, .index 1⟩, ⟨2, .value true⟩] } :=
  lesson_submit_payload_exact_k 7 exampleQuestions exampleSelections 2
    (by decide) (by decide)

/-- Every entry the lesson builder emits stems from a question in the list
whose selection is recorded. -/
lemma lessonAnswers_mem (sels : Selections) (qs : List UIQuestion)
    (a : Part006.LessonAttemptAnswer) (ha : a ∈ Part006.lessonAnswers sels qs) :
    ∃ q, q ∈ qs ∧ a.question_id = q.id ∧ (sels q.id).isSome = true := by
  induction qs with
  | nil => simp [Part006.lessonAnswers] at ha
  | cons q rest ih =>
    cases hsel : sels q.id with
    | none =>
      simp only [Part006.lessonAnswers, hsel] at ha
      obtain ⟨q', hq', h1, h2⟩ := ih ha
      exact ⟨q', by simp [hq'], h1, h2⟩
    | some sel =>
      cases hts : Part006.toSelectedPayload sel with
      | none =>
        simp only [Part006.lessonAnswers, hsel, hts] at ha
        obtain ⟨q', hq', h1, h2⟩ := ih ha
        exact ⟨q', by simp [hq'], h1, h2⟩
      | some s =>
        simp only [Part006.lessonAnswers, hsel, hts] at ha
        rcases List.mem_cons.mp ha with h | h
        · exact ⟨q, by simp, by rw [h], by rw [hsel]; rfl⟩
        · obtain ⟨q', hq', h1, h2⟩ := ih h
          exact ⟨q', by simp [hq'], h1, h2⟩

/-- Every entry the random builder emits stems from the question at some
position `j`, with the recorded id, the fallback-resolved `lesson_id`, and
`item_index` defaulting to the 1-based position. -/
lemma randomAnswers_spec (fb : Int) (sels : Selections) (n : Nat)
    (qs : List UIQuestion) (a : Part006.RandomAttemptAnswer)
    (ha : a ∈ Part006.randomAnswers fb sels n qs) :
    ∃ (j : Nat) (q : UIQuestion), qs[j]? = some q ∧ a.qid = q.id ∧
      (sels q.id).isSome = true ∧
      a.lesson_id = q.lesson_id.getD fb ∧
      a.item_index = q.item_index.getD ((n : Int) + (j : Int) + 1) := by
  induction qs generalizing n with
  | nil => simp [Part006.randomAnswers] at ha
  | cons q rest ih =>
    cases hsel : sels q.id with
    | none =>
      simp only [Part006.randomAnswers, hsel] at ha
      obtain ⟨j, q', hget, h1, h2, h3, h4⟩ := ih (n + 1) ha
      refine ⟨j + 1, q', by simpa [List.getElem?_cons_succ] using hget, h1, h2, h3, ?_⟩
      rw [h4]; congr 1; push_cast; ring
    | some sel =>
      cases hts : Part006.toSelectedPayload sel with
      | none =>
        simp only [Part006.randomAnswers, hsel, hts] at ha
        obtain ⟨j, q', hget, h1, h2, h3, h4⟩ := ih (n + 1) ha
        refine ⟨j + 1, q', by simpa [List.getElem?_cons_succ] using hget, h1, h2, h3, ?_⟩
        rw [h4]; congr 1; push_cast; ring
      | some s =>
        simp only [Part006.randomAnswers, hsel, hts] at ha
        rcases List.mem_cons.mp ha with h | h
        · refine ⟨0, q, by simp, by rw [h], by rw [hsel]; rfl, by rw [h], ?_⟩
          rw [h]; push_cast; norm_num
        · obtain ⟨j, q', hget, h1, h2, h3, h4⟩ := ih (n + 1) h
          refine ⟨j + 1, q', by simpa [List.getElem?_cons_succ] using hget, h1, h2, h3, ?_⟩
          rw [h4]; congr 1; push_cast; ring

/-- C2: at every submission call site an unanswered question is either
omitted — the `part_006` builders emit entries only for questions with a
recorded selection, and both lesson-quiz pages post
`answers.filter(a => a.selected !== null)` — or, in `buildSubmitPayload`
only, sent as the placeholder `{question_id, selected: {text: ""}}`, that
builder emitting exactly one entry per question. -/
theorem unanswered_question_handling :
    (∀ (L : Int) (qs : List UIQuestion) (sels : Selections)
        (a : Part006.LessonAttemptAnswer),
        a ∈ (Part006.buildLessonSubmitPayload L qs sels).answers →
        ∃ q, q ∈ qs ∧ a.question_id = q.id ∧ (sels q.id).isSome = true) ∧
    (∀ (qs : List UIQuestion) (sels : Selections) (fb : Int)
        (a : Part006.RandomAttemptAnswer),
        a ∈ (Part006.buildRandomSubmitPayload qs sels fb).answers →
        ∃ q, q ∈ qs ∧ a.qid = q.id ∧ (sels q.id).isSome = true) ∧
    (∀ (answers : List QuizLessonPage.QuizAnswer) (a : QuizLessonPage.QuizAnswer),
        a ∈ QuizLessonPage.postedAnswers answers → a.selected.isSome = true) ∧
    (∀ (answers : List Part008.QuizAnswer) (a : Part008.QuizAnswer),
        a ∈ Part008.postedAnswers answers → a.selected.isSome = true) ∧
    (∀ (L : Int) (qs : List UIQuestion) (sels : Selections),
        (QuizPayload.buildSubmitPayload L qs sels).answers.length = qs.length) ∧
    (∀ (L : Int) (qs : List UIQuestion) (sels : Selections) (i : Nat)
        (q : UIQuestion), qs[i]? = some q → sels q.id = none →
        (QuizPayload.buildSubmitPayload L qs sels).answers[i]?
          = some ⟨q.id, .text ""⟩) := by
  refine ⟨?_, ?_, ?_, ?_, ?_, ?_⟩
  · intro L qs sels a ha
    exact lessonAnswers_mem sels qs a ha
  · intro qs sels fb a ha
    obtain ⟨j, q, hget, h1, h2, _, _⟩ := randomAnswers_spec fb sels 0 qs a ha
    exact ⟨q, List.getElem?_mem hget, h1, h2⟩
  · intro answers a ha
    exact (List.mem_filter.mp ha).2
  · intro answers a ha
    exact (List.mem_filter.mp ha).2
  · intro L qs sels
    simp [QuizPayload.buildSubmitPayload]
  · intro L qs sels i q hget hnone
    simp [QuizPayload.buildSubmitPayload, List.getElem?_map, hget,
      QuizPayload.submitAnswerFor, hnone]

/-- Witness for C2: the omitted and placeholder behaviours at concrete
inputs. -/
theorem unanswered_question_handling_witness :
    (∃ q, q ∈ exampleQuestions ∧
        (Part006.LessonAttemptAnswer.mk 1 (.index 1)).question_id = q.id ∧
        (exampleSelections q.id).isSome = true) ∧
    ((QuizLessonPage.QuizAnswer.mk 3 (some ⟨some 0, none, none⟩)).selected.isSome = true) ∧
    ((QuizPayload.buildSubmitPayload 7 exampleQuestions exampleSelections).answers[2]?
        = some ⟨3, .text ""⟩) := by
  refine ⟨?_, ?_, ?_⟩
  · exact unanswered_question_handling.1 7 exampleQuestions exampleSelections
      ⟨1, .index 1⟩ (by decide)
  · exact unanswered_question_handling.2.2.1
      [⟨3, some ⟨some 0, none, none⟩⟩, ⟨4, none⟩] ⟨3, some ⟨some 0, none, none⟩⟩
      (by decide)
  · exact unanswered_question_handling.2.2.2.2.2 7 exampleQuestions exampleSelections 2
      { id := 3, qtype := .fill } (by decide) (by decide)

/-- C3: every entry of a random/category attempt carries a `lesson_id` — the
question's own, else the fallback (0 by default) — and an `item_index` —
the question's own, else its 1-based position. -/
theorem random_payload_defaults :
    (∀ (qs : List UIQuestion) (sels : Selections),
        Part006.buildRandomSubmitPayload qs sels
          = Part006.buildRandomSubmitPayload qs sels 0) ∧
    (∀ (qs : List UIQuestion) (sels : Selections) (fb : Int)
        (a : Part006.RandomAttemptAnswer),
        a ∈ (Part006.buildRandomSubmitPayload qs sels fb).answers →
        ∃ (j : Nat) (q : UIQuestion), qs[j]? = some q ∧ a.qid = q.id ∧
          a.lesson_id = q.lesson_id.getD fb ∧
          a.item_index = q.item_index.getD ((j : Int) + 1) ∧
          (q.lesson_id = none → a.lesson_id = fb) ∧
          (q.item_index = none → a.item_index = (j : Int) + 1)) := by
  refine ⟨fun qs sels => rfl, ?_⟩
  intro qs sels fb a ha
  obtain ⟨j, q, hget, h1, _, h3, h4⟩ := randomAnswers_spec fb sels 0 qs a ha
  have h4' : a.item_index = q.item_index.getD ((j : Int) + 1) := by
    rw [h4]; congr 1; push_cast; ring
  exact ⟨j, q, hget, h1, h3, h4',
    fun hnone => by rw [h3, hnone]; rfl,
    fun hnone => by rw [h4', hnone]; rfl⟩

/-- Witness for C3: a question carrying neither `lesson_id` nor
`item_index` yields the defaults 0 and position + 1. -/
theorem random_payload_defaults_witness :
    ∃ (j : Nat) (q : UIQuestion),
      [UIQuestion.mk 10 none none "" .mcq (.mcq ["x", "y"])][j]? = some q ∧
      (Part006.RandomAttemptAnswer.mk 10 0 1 (.index 0)).qid = q.id ∧
      (Part006.RandomAttemptAnswer.mk 10 0 1 (.index 0)).lesson_id
        = q.lesson_id.getD 0 ∧
      (Part006.RandomAttemptAnswer.mk 10 0 1 (.index 0)).item_index
        = q.item_index.getD ((j : Int) + 1) ∧
      (q.lesson_id = none →
        (Part006.RandomAttemptAnswer.mk 10 0 1 (.index 0)).lesson_id = 0) ∧
      (q.item_index = none →
        (Part006.RandomAttemptAnswer.mk 10 0 1 (.index 0)).item_index
          = (j : Int) + 1) :=
  random_payload_defaults.2
    [UIQuestion.mk 10 none none "" .mcq (.mcq ["x", "y"])]
    (fun qid => if qid = 10 then some (.mcq (some 0)) else none) 0
    ⟨10, 0, 1, .index 0⟩ (by decide)

/-- Counting over a map whose elements all satisfy (or all fail) the
predicate. -/
lemma countP_map_const {α β : Type} (l : List α) (f : α → β) (p : β → Bool)
    (b : Bool) (h : ∀ x, p (f x) = b) :
    (l.map f).countP p = if b then l.length else 0 := by
  induction l with
  | nil => cases b <;> simp
  | cons a l ih =>
    cases b <;> simp [List.countP_cons, h, ih]

/-- The per-kind page count of a single flattened section. -/
lemma pagesOfSection_countP (k : LessonSeq.PKind) (s : LessonSeq.Sect) :
    (LessonSeq.pagesOfSection s).countP (fun p => p.kind == k)
      = sectPageCount k s := by
  cases s with
  | overview id b ro en =>
      cases k <;> simp [LessonSeq.pagesOfSection, LessonSeq.Page.kind,
        LessonSeq.Sect.kind, sectPageCount, List.countP_cons]
  | grammar id pts mini ro =>
      cases k <;> simp [LessonSeq.pagesOfSection, LessonSeq.Page.kind,
        LessonSeq.Sect.kind, sectPageCount, List.countP_cons]
  | review id ro =>
      cases k <;> simp [LessonSeq.pagesOfSection, LessonSeq.Page.kind,
        LessonSeq.Sect.kind, sectPageCount, List.countP_cons]
  | teach id ro items =>
      rw [show LessonSeq.pagesOfSection (.teach id ro items)
          = items.enum.map (fun p =>
              LessonSeq.Page.teach (id ++ "-" ++ toString p.1) id p.2 ro) from rfl,
        countP_map_const _ _ _ (LessonSeq.PKind.teach == k)
          (fun x => by simp [LessonSeq.Page.kind])]
      cases k <;> simp [sectPageCount, List.enum_length]
  | patterns id exs ro =>
      rw [show LessonSeq.pagesOfSection (.patterns id exs ro)
          = exs.enum.map (fun p =>
              LessonSeq.Page.pattern (id ++ "-" ++ toString p.1) id p.2 ro) from rfl,
        countP_map_const _ _ _ (LessonSeq.PKind.pattern == k)
          (fun x => by simp [LessonSeq.Page.kind])]
      cases k <;> simp [sectPageCount, List.enum_length]
  | build id tasks ro =>
      rw [show LessonSeq.pagesOfSection (.build id tasks ro)
          = tasks.enum.map (fun p =>
              LessonSeq.Page.build (id ++ "-" ++ toString p.1) id p.2 ro) from rfl,
        countP_map_const _ _ _ (LessonSeq.PKind.build == k)
          (fun x => by simp [LessonSeq.Page.kind])]
      cases k <;> simp [sectPageCount, List.enum_length]
  | listen id tasks ro =>
      rw [show LessonSeq.pagesOfSection (.listen id tasks ro)
          = tasks.enum.map (fun p =>
              LessonSeq.Page.listen (id ++ "-" ++ toString p.1) id p.2 ro) from rfl,
        countP_map_const _ _ _ (LessonSeq.PKind.listen == k)
          (fun x => by simp [LessonSeq.Page.kind])]
      cases k <;> simp [sectPageCount, List.enum_length]
  | dictation id tasks ro =>
      rw [show LessonSeq.pagesOfSection (.dictation id tasks ro)
          = tasks.enum.map (fun p =>
              LessonSeq.Page.dictation (id ++ "-" ++ toString p.1) id p.2 ro) from rfl,
        countP_map_const _ _ _ (LessonSeq.PKind.dictation == k)
          (fun x => by simp [LessonSeq.Page.kind])]
      cases k <;> simp [sectPageCount, List.enum_length]

/-- The flattening's per-kind page count is the sum of the per-section
contributions. -/
lemma flattenSections_countP (k : LessonSeq.PKind) (secs : List LessonSeq.Sect) :
    (LessonSeq.flattenSections secs).countP (fun p => p.kind == k)
      = (secs.map (sectPageCount k)).sum := by
  induction secs with
  | nil => rfl
  | cons s secs ih =>
    simp only [LessonSeq.flattenSections, List.map_cons, List.flatten_cons,
      List.countP_append, List.sum_cons] at ih ⊢
    rw [pagesOfSection_countP, ih]

/-- A sum of 0/1 contributions is a `countP`. -/
lemma sum_map_ite_eq_countP (p : LessonSeq.Sect → Bool) (f : LessonSeq.Sect → Nat)
    (hf : ∀ s, f s = if p s then 1 else 0) (secs : List LessonSeq.Sect) :
    (secs.map f).sum = secs.countP p := by
  induction secs with
  | nil => rfl
  | cons s secs ih =>
    simp only [List.map_cons, List.sum_cons, List.countP_cons, hf s, ih]
    omega

/-- C4: the content-v2 flattening yields exactly one teach page per
vocabulary item, one page per overview/grammar/review section, one per
pattern example and one per build/listen/dictation task; the flashcards
fallback yields exactly [one overview, one teach page per flashcard, one
review] in order. -/
theorem sequencer_page_counts :
    (∀ secs : List LessonSeq.Sect,
      (LessonSeq.flattenSections secs).countP (fun p => p.kind == .teach)
          = (secs.map LessonSeq.Sect.teachItems).sum ∧
      (LessonSeq.flattenSections secs).countP (fun p => p.kind == .overview)
          = secs.countP (fun s => s.kind == .overview) ∧
      (LessonSeq.flattenSections secs).countP (fun p => p.kind == .grammar)
          = secs.countP (fun s => s.kind == .grammar) ∧
      (LessonSeq.flattenSections secs).countP (fun p => p.kind == .review)
          = secs.countP (fun s => s.kind == .review) ∧
      (LessonSeq.flattenSections secs).countP (fun p => p.kind == .pattern)
          = (secs.map LessonSeq.Sect.patternExamples).sum ∧
      (LessonSeq.flattenSections secs).countP (fun p => p.kind == .build)
          = (secs.map LessonSeq.Sect.buildTasks).sum ∧
      (LessonSeq.flattenSections secs).countP (fun p => p.kind == .listen)
          = (secs.map LessonSeq.Sect.listenTasks).sum ∧
      (LessonSeq.flattenSections secs).countP (fun p => p.kind == .dictation)
          = (secs.map LessonSeq.Sect.dictationTasks).sum) ∧
    (∀ fcs : List LessonSeq.FlashcardDTO,
      ∃ mid : List LessonSeq.Page,
        LessonSeq.fallbackPages fcs
            = LessonSeq.Page.overview "intro" "intro" none none none
                :: (mid ++ [LessonSeq.Page.review "review" "review" none]) ∧
        mid.length = fcs.length ∧
        mid.all (fun p => p.kind == .teach) = true) := by
  constructor
  · intro secs
    refine ⟨?_, ?_, ?_, ?_, ?_, ?_, ?_, ?_⟩
    · rw [flattenSections_countP]
      congr 1
      exact List.map_congr_left (fun s _ => by
        cases s <;> simp [sectPageCount, LessonSeq.Sect.teachItems, LessonSeq.Sect.kind])
    · rw [flattenSections_countP]
      exact sum_map_ite_eq_countP _ _
        (fun s => by cases s <;> simp [sectPageCount, LessonSeq.Sect.kind]) secs
    · rw [flattenSections_countP]
      exact sum_map_ite_eq_countP _ _
        (fun s => by cases s <;> simp [sectPageCount, LessonSeq.Sect.kind]) secs
    · rw [flattenSections_countP]
      exact sum_map_ite_eq_countP _ _
        (fun s => by cases s <;> simp [sectPageCount, LessonSeq.Sect.kind]) secs
    · rw [flattenSections_countP]
      congr 1
      exact List.map_congr_left (fun s _ => by
        cases s <;> simp [sectPageCount, LessonSeq.Sect.patternExamples, LessonSeq.Sect.kind])
    · rw [flattenSections_countP]
      congr 1
      exact List.map_congr_left (fun s _ => by
        cases s <;> simp [sectPageCount, LessonSeq.Sect.buildTasks, LessonSeq.Sect.kind])
    · rw [flattenSections_countP]
      congr 1
      exact List.map_congr_left (fun s _ => by
        cases s <;> simp [sectPageCount, LessonSeq.Sect.listenTasks, LessonSeq.Sect.kind])
    · rw [flattenSections_countP]
      congr 1
      exact List.map_congr_left (fun s _ => by
        cases s <;> simp [sectPageCount, LessonSeq.Sect.dictationTasks, LessonSeq.Sect.kind])
  · intro fcs
    refine ⟨_, rfl, by simp [List.enum_length], ?_⟩
    simp only [List.all_eq_true]
    intro p hp
    simp only [List.mem_map] at hp
    obtain ⟨pr, _, rfl⟩ := hp
    rfl

/-- A string has positive length iff it is not the empty string. -/
lemma string_length_pos_iff (s : String) : 0 < s.length ↔ s ≠ "" := by
  rw [String.length, List.length_pos]
  constructor
  · intro h hne
    rw [hne] at h
    exact h rfl
  · intro h hd
    apply h
    cases s
    simp_all

/-- C5: with the current page in range (and its listen entry initialized,
as the flattening loop guarantees), the Continue/Next control is enabled
iff the page's type-specific completion predicate holds; and once enabled
it stays enabled under every user-input update that does not clear the
current page's answer. -/
theorem next_gating (pages : List LessonSeq.Page) (cur : Nat)
    (st : LessonSeq.Answers) (p : LessonSeq.Page)
    (hp : pages.get? cur = some p)
    (hinit : p.kind = .listen → (st.listen p.pid).isSome = true) :
    (LessonSeq.canProceed pages cur st = true ↔ LessonSeq.specPageDone st p) ∧
    (∀ op : LessonSeq.AnswerOp,
      LessonSeq.canProceed pages cur st = true →
      LessonSeq.clearsAnswerOf op p = false →
      LessonSeq.canProceed pages cur (LessonSeq.applyOp st op) = true) := by
  constructor
  · cases p with
    | overview id sec b ro en =>
      simp only [LessonSeq.canProceed, hp]
      simp [LessonSeq.specPageDone]
    | grammar id sec pts ro =>
      simp only [LessonSeq.canProceed, hp]
      simp [LessonSeq.specPageDone]
    | pattern id sec ex ro =>
      simp only [LessonSeq.canProceed, hp]
      simp [LessonSeq.specPageDone]
    | review id sec ro =>
      simp only [LessonSeq.canProceed, hp]
      simp [LessonSeq.specPageDone]
    | teach id sec item ro =>
      simp only [LessonSeq.canProceed, hp]
      cases hr : st.revealedTeach id with
      | none => simp [hr, LessonSeq.specPageDone]
      | some b => cases b <;> simp [hr, LessonSeq.specPageDone]
    | listen id sec task ro =>
      have hsome := hinit rfl
      simp only [LessonSeq.Page.pid] at hsome
      simp only [LessonSeq.canProceed, hp]
      cases hl : st.listen id with
      | none => rw [hl] at hsome; simp at hsome
      | some v =>
        cases v with
        | none => simp [hl, LessonSeq.specPageDone]
        | some i => simp [hl, LessonSeq.specPageDone]
    | dictation id sec task ro =>
      simp only [LessonSeq.canProceed, hp, LessonSeq.specPageDone,
        decide_eq_true_eq]
      exact string_length_pos_iff _
    | build id sec task ro =>
      simp only [LessonSeq.canProceed, hp, LessonSeq.specPageDone,
        decide_eq_true_eq]
      exact List.length_pos
  · intro op hcp hclear
    cases p with
    | overview id sec b ro en => simp only [LessonSeq.canProceed, hp]
    | grammar id sec pts ro => simp only [LessonSeq.canProceed, hp]
    | pattern id sec ex ro => simp only [LessonSeq.canProceed, hp]
    | review id sec ro => simp only [LessonSeq.canProceed, hp]
    | teach id sec item ro =>
      simp only [LessonSeq.canProceed, hp] at hcp ⊢
      cases op with
      | reveal pid =>
        simp only [LessonSeq.applyOp]
        by_cases h : id = pid
        · simp [h]
        · simp [h, hcp]
      | chooseListen pid i => simpa [LessonSeq.applyOp] using hcp
      | typeDictation pid t => simpa [LessonSeq.applyOp] using hcp
      | setBuild pid ts => simpa [LessonSeq.applyOp] using hcp
    | listen id sec task ro =>
      simp only [LessonSeq.canProceed, hp] at hcp ⊢
      cases op with
      | chooseListen pid i =>
        simp only [LessonSeq.applyOp]
        by_cases h : id = pid
        · simp [h]
        · simp [h]; simpa using hcp
      | reveal pid => simpa [LessonSeq.applyOp] using hcp
      | typeDictation pid t => simpa [LessonSeq.applyOp] using hcp
      | setBuild pid ts => simpa [LessonSeq.applyOp] using hcp
    | dictation id sec task ro =>
      simp only [LessonSeq.canProceed, hp] at hcp ⊢
      cases op with
      | typeDictation pid t =>
        simp only [LessonSeq.clearsAnswerOf, Bool.and_eq_false_iff] at hclear
        simp only [LessonSeq.applyOp]
        by_cases h : id = pid
        · have ht : t.trim ≠ "" := by
            rcases hclear with h1 | h1
            · exact absurd h.symm (by simpa using h1)
            · simpa using h1
          simp only [h, if_pos rfl, Option.getD_some]
          simpa [string_length_pos_iff] using ht
        · simp [h]; simpa using hcp
      | reveal pid => simpa [LessonSeq.applyOp] using hcp
      | chooseListen pid i => simpa [LessonSeq.applyOp] using hcp
      | setBuild pid ts => simpa [LessonSeq.applyOp] using hcp
    | build id sec task ro =>
      simp only [LessonSeq.canProceed, hp] at hcp ⊢
      cases op with
      | setBuild pid ts =>
        simp only [LessonSeq.clearsAnswerOf, Bool.and_eq_false_iff] at hclear
        simp only [LessonSeq.applyOp]
        by_cases h : id = pid
        · have hts : ts ≠ [] := by
            rcases hclear with h1 | h1
            · exact absurd h.symm (by simpa using h1)
            · simpa [List.isEmpty_iff] using h1
          simp only [h, if_pos rfl, Option.getD_some]
          simpa [List.length_pos] using hts
        · simp [h]; simpa using hcp
      | reveal pid => simpa [LessonSeq.applyOp] using hcp
      | chooseListen pid i => simpa [LessonSeq.applyOp] using hcp
      | typeDictation pid t => simpa [LessonSeq.applyOp] using hcp

/-- Witness for C5 at a one-listen-page lesson with an option chosen; the
monotonicity part is instantiated at a further `chooseListen` update. -/
theorem next_gating_witness :
    (LessonSeq.canProceed exPages 0 exAnswers = true ↔
      LessonSeq.specPageDone exAnswers exListenPage) ∧
    LessonSeq.canProceed exPages 0
        (LessonSeq.applyOp exAnswers (.chooseListen "l-0" 0)) = true :=
  ⟨(next_gating exPages 0 exAnswers exListenPage rfl (fun _ => by
      show (exAnswers.listen exListenPage.pid).isSome = true
      rfl)).1,
   (next_gating exPages 0 exAnswers exListenPage rfl (fun _ => by
      show (exAnswers.listen exListenPage.pid).isSome = true
      rfl)).2 (.chooseListen "l-0" 0) (by rfl) (by rfl)⟩


/-- C6 counterexample: on the lesson-quiz page, `canProceed` accepts any
non-null recorded answer — here a tf-shaped answer (`value: true`, no
`index`) on an mcq question — so the per-type shape claim fails at that
call site. -/
theorem lessonquiz_shape_unchecked :
    QuizLessonPage.canProceed
        (some { id := 5, questions := [{ id := 1, qtype := .mcq }] }) 0
        [{ question_id := 1, selected := some { value := some true } }] = true ∧
    specShapeMatchesQA .mcq { value := some true } = false :=
  ⟨rfl, rfl⟩

/-- C6 amended: the random-quiz page's `canProceed` holds iff the recorded
selection's tag matches the question's qtype (with non-null index/value,
non-empty build tokens); the lesson-quiz page's `canProceed` holds iff a
non-null answer is recorded, with no shape check. -/
theorem canProceed_shape (q : UIQuestion) (sels : Selections)
    (l : QuizLessonPage.Lesson) (cur : Nat)
    (answers : List QuizLessonPage.QuizAnswer) (ql : QuizLessonPage.Question)
    (hq : l.questions.get? cur = some ql) :
    (QuizRandomPage.canProceed (some q) sels = true ↔
      ∃ sel, sels q.id = some sel ∧ specShapeMatches q.qtype sel = true) ∧
    (QuizLessonPage.canProceed (some l) cur answers = true ↔
      (QuizLessonPage.getCurrentAnswer answers ql.id).isSome = true) := by
  constructor
  · cases hsel : sels q.id with
    | none => simp [QuizRandomPage.canProceed, hsel]
    | some sel =>
      cases hqt : q.qtype <;> cases sel <;>
        simp [QuizRandomPage.canProceed, hsel, hqt, specShapeMatches]
  · simp only [QuizLessonPage.canProceed, hq]

/-- Witness for C6 (amended) at a tf question answered false and a
one-question lesson with a recorded answer. -/
theorem canProceed_shape_witness :
    (QuizRandomPage.canProceed
        (some { id := 1, qtype := .tf })
        (fun i => if i = 1 then some (.tf (some false)) else none) = true ↔
      ∃ sel, (fun i => if i = (1 : Int) then some (UISelected.tf (some false)) else none)
          (1 : Int) = some sel ∧ specShapeMatches .tf sel = true) ∧
    (QuizLessonPage.canProceed
        (some { id := 5, questions := [{ id := 1, qtype := .mcq }] }) 0
        [{ question_id := 1, selected := some { index := some 0 } }] = true ↔
      (QuizLessonPage.getCurrentAnswer
        [{ question_id := 1, selected := some { index := some 0 } }] 1).isSome = true) :=
  canProceed_shape { id := 1, qtype := .tf }
    (fun i => if i = 1 then some (.tf (some false)) else none)
    { id := 5, questions := [{ id := 1, qtype := .mcq }] } 0
    [{ question_id := 1, selected := some { index := some 0 } }]
    { id := 1, qtype := .mcq } rfl

/-- C7 counterexample: the sequencer's progress-POST rejection handler is
`.catch(() => {})` — it emits no log; only the older manual-update variant
(`part_002`) logs the failure. -/
theorem progress_failure_unlogged :
    (¬ ∃ tag, LessonSeq.CatchEffect.consoleError tag ∈ LessonSeq.progressCatchEffects) ∧
    Part002.progressCatchEffects
      = [LessonSeq.CatchEffect.consoleError "Progress update error:"] := by
  constructor
  · rintro ⟨tag, h⟩
    simp [LessonSeq.progressCatchEffects] at h
  · rfl

/-- C7 amended: `next()` advances to `min(c+1, total-1)` and fires exactly
one progress POST carrying `percent = round(((n+1)/total) * 100)` for the
new index `n`; its rejection handler does nothing at all (the failure is
swallowed silently — not logged, not surfaced, not retried — and the index
advance never depends on the POST's outcome). -/
theorem next_progress_update :
    (∀ (lid : Int) (tok : String) (len c : Nat),
      (LessonSeq.nextStep (some lid) (some tok) len c).1
          = min (c + 1) ((if len = 0 then 1 else len) - 1) ∧
      (LessonSeq.nextStep (some lid) (some tok) len c).2
          = [{ lesson_id := lid,
               percent := round
                 ((((min (c + 1) ((if len = 0 then 1 else len) - 1) : Nat) : ℚ) + 1)
                   / ((if len = 0 then 1 else len : Nat) : ℚ) * 100) }] ∧
      (LessonSeq.nextStep (some lid) (some tok) len c).2.length = 1) ∧
    LessonSeq.progressCatchEffects = [] := by
  refine ⟨fun lid tok len c => ?_, rfl⟩
  refine ⟨rfl, ?_, rfl⟩
  simp [LessonSeq.nextStep, LessonSeq.progressPercent]

/-- C8: evaluation of both error helpers on a 400 response whose JSON body
is an object carrying `detail = "Invalid credentials"`.  The helper in
`src/lib/api.ts` throws a plain error whose message is the raw-text
truncation — its JSON-derived message is dead code, intercepted by its own
`catch` — while the typed variant produces the `ApiError` the spec
describes (status, parsed body, detail-first message). -/
theorem api_error_message_discarded :
    ApiErr.throwErrorFromResponsePlain 400 "Bad Request"
        "\x7b\"detail\":\"Invalid credentials\"\x7d"
        (some (.obj [("detail", .str "Invalid credentials")]))
      = "400 Bad Request — \x7b\"detail\":\"Invalid credentials\"\x7d" ∧
    ApiErr.throwErrorFromResponseTyped 400 "Bad Request"
        "\x7b\"detail\":\"Invalid credentials\"\x7d"
        (some (.obj [("detail", .str "Invalid credentials")]))
      = { message := "400 Bad Request — Invalid credentials", status := 400,
          data := some (.obj [("detail", .str "Invalid credentials")]) } :=
  ⟨rfl, rfl⟩

/-- C9 counterexample: immediately after `logout()`, the `Protected`
component of `src/components/Protected.tsx` neither redirects nor hides
anything — it renders its children for the unauthenticated session. -/
theorem protected_placeholder_no_redirect :
    (AuthStore.logout
        { accessToken := some "t", refreshToken := some "r",
          user := some { id := 1, username := "u" },
          isAuthenticated := true, hydrated := true }).isAuthenticated = false ∧
    AuthStore.protectedPlaceholder
        (AuthStore.logout
          { accessToken := some "t", refreshToken := some "r",
            user := some { id := 1, username := "u" },
            isAuthenticated := true, hydrated := true })
      = (false, .children) :=
  ⟨rfl, rfl⟩

/-- C9 amended: `logout()` clears all four session fields; the lesson-quiz
page's own auth effect and the `part_003` `Protected` variant redirect
unauthenticated users, but the placeholder `Protected` component performs
no check and always renders its children. -/
theorem logout_clears_and_redirects :
    (∀ s : AuthStore.AuthState,
      (AuthStore.logout s).accessToken = none ∧
      (AuthStore.logout s).refreshToken = none ∧
      (AuthStore.logout s).user = none ∧
      (AuthStore.logout s).isAuthenticated = false) ∧
    AuthStore.quizPageRedirects none = true ∧
    (∀ tok : String, AuthStore.quizPageRedirects (some tok) = false) ∧
    (∀ s : AuthStore.AuthState, s.hydrated = true → s.isAuthenticated = false →
      AuthStore.protectedPart003 s = (true, .nothing)) ∧
    (∀ s : AuthStore.AuthState,
      AuthStore.protectedPlaceholder s = (false, .children)) := by
  refine ⟨fun s => ⟨rfl, rfl, rfl, rfl⟩, rfl, fun tok => rfl, ?_, fun s => rfl⟩
  intro s h1 h2
  simp [AuthStore.protectedPart003, h1, h2]

/-- Witness for C9 (amended): a logged-out, hydrated session is redirected
by the `part_003` guard. -/
theorem logout_clears_and_redirects_witness :
    AuthStore.protectedPart003
        { accessToken := none, refreshToken := none, user := none,
          isAuthenticated := false, hydrated := true }
      = (true, .nothing) :=
  logout_clears_and_redirects.2.2.2.1
    { accessToken := none, refreshToken := none, user := none,
      isAuthenticated := false, hydrated := true } rfl rfl


/-- Counting one value in a filtered list: all occurrences survive when the
value passes the filter, none otherwise. -/
lemma count_filter_of_value (l : List String) (p : String → Prop) [DecidablePred p]
    (t : String) :
    (l.filter (fun x => decide (p x))).count t = if p t then l.count t else 0 := by
  induction l with
  | nil => simp
  | cons a l ih =>
    by_cases hpa : p a
    · by_cases hat : a = t
      · subst hat
        simp [List.filter_cons, hpa, List.count_cons, ih]
      · simp [List.filter_cons, hpa, List.count_cons, hat, ih]
    · by_cases hat : a = t
      · subst hat
        simp [List.filter_cons, hpa, List.count_cons, ih]
      · simp [List.filter_cons, hpa, List.count_cons, hat, ih]

/-- Accumulating fold of conditional pushes is an append of a filter. -/
lemma foldl_ite_push (p : String → Prop) [DecidablePred p] (l acc : List String) :
    l.foldl (fun acc t => if p t then acc ++ [t] else acc) acc
      = acc ++ l.filter (fun x => decide (p x)) := by
  induction l generalizing acc with
  | nil => simp
  | cons a l ih =>
    by_cases hpa : p a <;> simp [List.filter_cons, hpa, ih]

/-- C10 counterexample: with task tokens `["a","a"]` and one `"a"` selected
(a state reachable by one tile click), the displayed remaining list still
holds two `"a"` tiles, not `2 − 1 = 1`. -/
theorem tokenbuilder_remaining_surplus :
    TokenBuilder.Reachable ["a", "a"] ["a"] ∧
    ¬ ((TokenBuilder.remaining ["a", "a"] ["a"]).count "a"
        = ["a", "a"].count "a" - ["a"].count "a") := by
  constructor
  · have h : TokenBuilder.Reachable ["a", "a"] ([] ++ ["a"]) :=
      TokenBuilder.Reachable.add [] "a" TokenBuilder.Reachable.nil (by decide)
    simpa using h
  · decide

/-- C10 amended: in every reachable `TokenBuilder` state the selected
tokens form a sub-multiset of the task's tokens; the remaining tile list
shows, for each value, *all* of the task's occurrences while any remain
unselected and none once the value is exhausted (both page variants compute
the same list). -/
theorem tokenbuilder_invariant (tokens sel : List String)
    (h : TokenBuilder.Reachable tokens sel) :
    (∀ t, sel.count t ≤ tokens.count t) ∧
    (∀ t, (TokenBuilder.remaining tokens sel).count t
        = if sel.count t < tokens.count t then tokens.count t else 0) ∧
    TokenBuilder.remainingReduce tokens sel = TokenBuilder.remaining tokens sel := by
  refine ⟨?_, ?_, ?_⟩
  · induction h with
    | nil => simp
    | add sel t hsel hmem ih =>
      intro t'
      have hlt : sel.count t < tokens.count t := by
        have hm := List.mem_filter.mp hmem
        simpa using hm.2
      by_cases ht : t = t'
      · subst ht
        simpa [List.count_append] using hlt
      · simpa [List.count_append, List.count_singleton, ht] using ih t'
    | remove sel i hsel ih =>
      intro t'
      exact le_trans (List.Sublist.count_le (List.eraseIdx_sublist sel i) t') (ih t')
  · intro t
    exact count_filter_of_value tokens
      (fun x => List.count x sel < List.count x tokens) t
  · rw [TokenBuilder.remainingReduce, TokenBuilder.remaining,
      foldl_ite_push (fun t => List.count t sel < List.count t tokens)]
    simp

/-- Witness for C10 (amended) at tokens `["a","b"]` with `"a"` selected. -/
theorem tokenbuilder_invariant_witness :
    (["a"].count "a" ≤ ["a", "b"].count "a") ∧
    ((TokenBuilder.remaining ["a", "b"] ["a"]).count "a"
        = if ["a"].count "a" < ["a", "b"].count "a" then ["a", "b"].count "a" else 0) ∧
    TokenBuilder.remainingReduce ["a", "b"] ["a"]
      = TokenBuilder.remaining ["a", "b"] ["a"] := by
  have hreach : TokenBuilder.Reachable ["a", "b"] ["a"] := by
    have h : TokenBuilder.Reachable ["a", "b"] ([] ++ ["a"]) :=
      TokenBuilder.Reachable.add [] "a" TokenBuilder.Reachable.nil (by decide)
    simpa using h
  have h := tokenbuilder_invariant ["a", "b"] ["a"] hreach
  exact ⟨h.1 "a", h.2.1 "a", h.2.2⟩

end Prava
